import Mathlib

/-!
Shallow embedding of `src/compiler-core/src/build/beam_compiler.rs`
(the persistent BEAM-compiler driver) and proofs about it.

Modelling conventions:
* A `Child` process handle is identified by a `Nat` (its identity only
  matters up to equality, e.g. for "the same process is reused").
* Rust `String` / `Utf8PathBuf` are Lean `String`s; `str::trim` is
  modelled by `rustTrim` below, which trims ASCII whitespace (the
  protocol sentinels and line endings are ASCII, where the two agree).
* OS interactions (`try_wait`, `Command::spawn`, `writeln!`, `read_line`,
  `FileSystemWriter::write`) are modelled by an environment record that
  fixes the outcome of each interaction for one `compile` call.
* `read_line` on the child's stdout is modelled by a finite list of
  successfully read lines followed by how the stream ends: `closed`
  (every further `read_line` returns `Ok(0)` with an empty buffer, which
  is what a closed pipe does) or `ioError` (`read_line` returns `Err`).
  Because the source loop `while let Ok(_) = read_line(..)` can spin
  forever on a closed stream, the loop is embedded with explicit fuel:
  a `none` result for every fuel means the loop never terminates.
-/

/-- The `crate::io::Stdio` selection passed by the caller: `Inherit`
forwards pass-through lines to standard output, `Null` discards them. -/
inductive Stdio where
  | inherit
  | null
deriving DecidableEq, Repr

/-- Modelled from the spec: the relevant cases of `std::io::ErrorKind`
(the code only ever inspects whether a kind is `NotFound`; every other
kind is carried opaquely, here as a numeric code). -/
inductive OsErrorKind where
  | notFound
  | other (code : Nat)
deriving DecidableEq, Repr

/-- Modelled from the spec (§7 error taxonomy): the two variants of
`crate::error::Error` this component constructs. `shellCommand` carries
the program name and an optional OS error kind; `shellProgramNotFound`
carries only the program name. -/
inductive Error where
  | shellCommand (program : String) (err : Option OsErrorKind)
  | shellProgramNotFound (program : String)
deriving DecidableEq, Repr

/-- The failure the driver returns for an explicit `"err"` sentinel and
for the post-loop "stream closed" return: `Error::ShellCommand
{ program: "escript", err: None }`. -/
def errNoDetail : Error := .shellCommand "escript" none

/-- How the response stream ends after its successfully-read lines:
`closed` models end of stream (`read_line` keeps returning `Ok(0)`),
`ioError` models a read failure (`read_line` returns `Err`). -/
inductive StreamEnd where
  | closed
  | ioError
deriving DecidableEq, Repr

/-- ASCII whitespace, the fragment of Rust's `char::is_whitespace`
relevant to protocol lines (which are ASCII). -/
def isAsciiWhitespace (c : Char) : Bool :=
  c = ' ' || c = '\t' || c = '\n' || c = '\r'

/-- Rust `str::trim` (restricted to ASCII whitespace): drop whitespace
from both ends. Implemented structurally over the character list so it
evaluates by kernel reduction. -/
def rustTrim (s : String) : String :=
  ⟨((s.data.dropWhile isAsciiWhitespace).reverse.dropWhile
      isAsciiWhitespace).reverse⟩

/-- The lines a given `Stdio` sink emits for one pass-through line:
`Stdio::Inherit => print!("{}", buf)` forwards the raw line,
`Stdio::Null => {}` discards it. -/
def sinkLines (stdio : Stdio) (l : String) : List String :=
  match stdio with
  | .inherit => [l]
  | .null => []

/-- All lines a sink emits for a list of pass-through lines. -/
def sinkAll (stdio : Stdio) (ls : List String) : List String :=
  match stdio with
  | .inherit => ls
  | .null => []

/-- The response-reading loop of `BeamCompiler::compile` (lines 71–94),
with explicit fuel. One unit of fuel is one `read_line` call. Returns
the loop's result (`none` while the loop is still running when fuel runs
out) and the pass-through lines handed to the sink so far (a result of
`none` reports no output, it is only used to establish non-termination).

Mirrors the source: a successfully read line whose trim is `"ok"`
returns `Ok(())`; trim `"err"` returns the no-detail `ShellCommand`
failure; any other line goes to the sink and the loop continues. On a
closed stream `read_line` returns `Ok(0)` leaving the buffer empty, so
the `while let Ok(_)` guard stays true, `"".trim` matches the
pass-through arm (printing the empty buffer emits nothing) and the loop
spins; only an `Err` from `read_line` exits the loop and reaches the
post-loop `Err(ShellCommand { err: None })` at lines 91–94. -/
def readLoopFuel (stdio : Stdio) :
    Nat → List String → StreamEnd → Option (Except Error Unit) × List String
  | 0, _, _ => (none, [])
  | fuel + 1, ls, e =>
    match ls, e with
    | [], .ioError => (some (.error errNoDetail), [])
    | [], .closed => readLoopFuel stdio fuel [] .closed
    | l :: rest, e' =>
      if rustTrim l = "ok" then (some (.ok ()), [])
      else if rustTrim l = "err" then (some (.error errNoDetail), [])
      else
        let r := readLoopFuel stdio fuel rest e'
        (r.1, sinkLines stdio l ++ r.2)

/-- Model of `camino::Utf8Path::join` on Unix (the cases exercised here): an
absolute right-hand side replaces the path, otherwise the right-hand
side is appended after a `/` separator (none added when the left side is
empty or already ends in `/`). -/
def pathJoin (a b : String) : String :=
  if b.data.head? = some '/' then b
  else if a = "" then b
  else if a.data.getLast? = some '/' then a ++ b
  else a ++ "/" ++ b

/-- Modelled from the spec: `paths::ARTEFACT_DIRECTORY_NAME`, the
artifact-subdirectory convention supplied by the excluded path-naming
collaborator (`src/compiler-core/src/paths.rs` is not part of the shown
source). Its concrete value is never relevant to the claims. -/
def artefactDirectoryName : String := "_gleam_artefacts"

/-- The argument vector built by `BeamCompiler::compile` (lines 52–62):
`vec!["--lib", lib, "--out", out.join("ebin")]`, then one
`out.join(ARTEFACT_DIRECTORY_NAME).join(module)` pushed per module.
`modules` is the iteration sequence of the caller's `HashSet`: the set's
iteration order is an unspecified permutation of its elements, so the
model takes that sequence as an input. -/
def requestArgs (out lib : String) (modules : List String) : List String :=
  modules.foldl
    (fun args m => args ++ [pathJoin (pathJoin out artefactDirectoryName) m])
    ["--lib", lib, "--out", pathJoin out "ebin"]

/-- The unit-separator character 0x1F used to join the argument list. -/
def usep : Char := Char.ofNat 0x1f

/-- The one-character separator string `"\x1f"`. -/
def usepStr : String := String.mk [usep]

/-- Rust `Vec<String>::join(sep)`: empty for `[]`, the single element
for `[a]`, otherwise the elements interleaved with `sep`. -/
def joinSep (sep : String) : List String → String
  | [] => ""
  | [a] => a
  | a :: b :: rest => a ++ sep ++ joinSep sep (b :: rest)

/-- The payload of the request line: `args.join("\x1f")` (line 66). -/
def requestPayload (out lib : String) (modules : List String) : String :=
  joinSep usepStr (requestArgs out lib modules)

/-- The full request line written by `writeln!` in one write: the joined
payload followed by a newline (line 66). -/
def requestLine (out lib : String) (modules : List String) : String :=
  requestPayload out lib modules ++ "\n"

/-- Modelled from the spec (§6 wire protocol, §4.2 RequestEncoder): one
line whose tokens are `--lib`, `<library-dir>`, `--out`,
`<output-dir>/ebin`, then one artifact path
`<output-dir>/<artifact-subdirectory>/<module>` per module, joined by
the unit-separator character 0x1F and terminated by a newline. Stated
from the spec's words, to be compared with `requestLine`, which is
derived from the source. -/
def specRequestLine (out lib : String) (modules : List String) : String :=
  joinSep usepStr
    (["--lib", lib, "--out", pathJoin out "ebin"] ++
      modules.map (fun m => pathJoin (pathJoin out artefactDirectoryName) m))
    ++ "\n"

/-- Rust `str::split(sep)` over the character list of a string: splits
on every occurrence of `sep`; always returns at least one (possibly
empty) piece, and `n` separators yield `n + 1` pieces. -/
def splitChar (sep : Char) : List Char → List (List Char)
  | [] => [[]]
  | c :: rest =>
    match splitChar sep rest with
    | [] => [[]]
    | h :: t => if c = sep then [] :: h :: t else (c :: h) :: t

/-- Splitting a string on a separator character, as a list of strings. -/
def splitSep (sep : Char) (s : String) : List String :=
  (splitChar sep s.data).map String.mk

/-- Result of `Child::try_wait` on the stored process: `Ok(None)` means
still running, `Ok(Some(status))` means it has exited, `Err(_)` is a
probe error. -/
inductive ProbeOutcome where
  | running
  | exited
  | probeErr
deriving DecidableEq, Repr

/-- Result of `Command::new("escript")...spawn()`: a fresh child handle,
or a failure with its OS error kind. -/
inductive SpawnOutcome where
  | ok (p : Nat)
  | fail (k : OsErrorKind)
deriving DecidableEq, Repr

/-- The observable OS-level actions of one `compile` call or of the
driver's teardown, in order of occurrence. -/
inductive Event where
  | spawned (p : Nat)
  | droppedOld (p : Nat)
  | wroteRequest (line : String)
  | killed (p : Nat)
  | waited (p : Nat)
deriving DecidableEq, Repr

/-- The environment fixing every OS interaction of one `compile` call. -/
structure CompileEnv where
  /-- Outcome of `try_wait` on the stored process, when one is stored. -/
  probe : ProbeOutcome
  /-- Outcome of `io.write(&escript_path, escript_source)` during `spawn`:
  `none` is success, `some e` the propagated error. -/
  fsWrite : Option Error
  /-- Outcome of `Command::spawn` during `spawn`. -/
  spawnRes : SpawnOutcome
  /-- Outcome of `writeln!(inner.stdin, ...)`: `none` is success, `some k` a write
  failure with OS error kind `k`. -/
  writeRes : Option OsErrorKind
  /-- Successfully read response lines, each as returned by `read_line`
  (trailing newline included when one was present in the stream). -/
  lines : List String
  /-- How the response stream ends after `lines`. -/
  ending : StreamEnd

/-- Embedding of `BeamCompiler::spawn` (lines 97–134): materialize the driver script
via the filesystem writer (propagating its error), then spawn `escript`;
a `NotFound` spawn error becomes `ShellProgramNotFound`, any other kind
becomes `ShellCommand` carrying that kind. -/
def spawnBeam (env : CompileEnv) : Except Error Nat :=
  match env.fsWrite with
  | some e => .error e
  | none =>
    match env.spawnRes with
    | .ok p => .ok p
    | .fail .notFound => .error (.shellProgramNotFound "escript")
    | .fail k => .error (.shellCommand "escript" (some k))

/-- The `match self.inner` at lines 40–50 of `compile`: reuse the stored
process when `try_wait` returns `Ok(None)`; otherwise (no stored
process, probe says exited, or probe error) spawn a fresh process and
`Option::insert` it, which first spawns the new child and then drops the
old stored value. Returns the process used for this call, the new value
of `self.inner`, and the events; a spawn error propagates with
`self.inner` untouched (the `?` fires before `insert`). -/
def ensureLive (st : Option Nat) (env : CompileEnv) :
    Except Error (Nat × Option Nat × List Event) :=
  match st with
  | some p =>
    match env.probe with
    | .running => .ok (p, some p, [])
    | _ =>
      match spawnBeam env with
      | .error e => .error e
      | .ok q => .ok (q, some q, [.spawned q, .droppedOld p])
  | none =>
    match spawnBeam env with
    | .error e => .error e
    | .ok q => .ok (q, some q, [.spawned q])

/-- Embedding of `BeamCompiler::compile` (lines 32–95) with explicit fuel for the
read loop. Input: the stored `self.inner` (`st`), the call arguments and
the environment. Output: the call's result (`none` when the read loop is
still spinning after `fuel` reads), the final value of `self.inner`, the
events in order, and the pass-through lines handed to the sink. -/
def compileBeam (fuel : Nat) (st : Option Nat) (out lib : String)
    (modules : List String) (stdio : Stdio) (env : CompileEnv) :
    Option (Except Error Unit) × Option Nat × List Event × List String :=
  match ensureLive st env with
  | .error e => (some (.error e), st, [], [])
  | .ok (_p, st', evs) =>
    match env.writeRes with
    | some k => (some (.error (.shellCommand "escript" (some k))), st', evs, [])
    | none =>
      let r := readLoopFuel stdio fuel env.lines env.ending
      (r.1, st', evs ++ [.wroteRequest (requestLine out lib modules)], r.2)

/-- Embedding of `Drop for BeamCompiler` (lines 137–144): when a process is stored,
`kill` it and then `wait` for it; the `Result` of each step is discarded
(`let _ = ...`), so the emitted actions do not depend on whether either
step fails (`killFails`, `waitFails`). -/
def dropBeam (st : Option Nat) (killFails waitFails : Bool) : List Event :=
  match st, killFails, waitFails with
  | some p, _, _ => [.killed p, .waited p]
  | none, _, _ => []

example : readLoopFuel .inherit 2 ["compiling foo\n", "ok\n"] .closed
    = (some (.ok ()), ["compiling foo\n"]) := by rfl

example : readLoopFuel .null 1 ["err\n"] .closed
    = (some (.error errNoDetail), []) := by rfl

example : (readLoopFuel .inherit 5 ["still working\n"] .closed).1 = none := by rfl

example : requestPayload "/out" "/lib" ["m1.erl"]
    = "--lib\x1f/lib\x1f--out\x1f/out/ebin\x1f/out/_gleam_artefacts/m1.erl" := by rfl

example : splitSep usep (requestPayload "/out" "/lib" ["m1.erl"])
    = requestArgs "/out" "/lib" ["m1.erl"] := by rfl

lemma sinkAll_nil (stdio : Stdio) : sinkAll stdio [] = [] := by
  cases stdio <;> rfl

lemma sinkAll_cons (stdio : Stdio) (l : String) (ls : List String) :
    sinkAll stdio (l :: ls) = sinkLines stdio l ++ sinkAll stdio ls := by
  cases stdio <;> rfl

lemma readLoopFuel_closed_none (stdio : Stdio) :
    ∀ (fuel : Nat) (ls : List String),
      (∀ l ∈ ls, rustTrim l ≠ "ok" ∧ rustTrim l ≠ "err") →
      (readLoopFuel stdio fuel ls .closed).1 = none := by
  intro fuel
  induction fuel with
  | zero => intro ls _; rfl
  | succ n ih =>
    intro ls h
    cases ls with
    | nil =>
      show (readLoopFuel stdio n [] .closed).1 = none
      exact ih [] (by simp)
    | cons l rest =>
      have h1 := h l (by simp)
      simp only [readLoopFuel, h1.1, h1.2, if_false, if_neg]
      exact ih rest (fun x hx => h x (by simp [hx]))

lemma readLoopFuel_passthrough (stdio : Stdio) :
    ∀ (pre : List String) (fuel : Nat) (ls : List String) (e : StreamEnd),
      (∀ l ∈ pre, rustTrim l ≠ "ok" ∧ rustTrim l ≠ "err") →
      readLoopFuel stdio (pre.length + fuel) (pre ++ ls) e =
        ((readLoopFuel stdio fuel ls e).1,
          sinkAll stdio pre ++ (readLoopFuel stdio fuel ls e).2) := by
  intro pre
  induction pre with
  | nil => intro fuel ls e _; simp [sinkAll_nil]
  | cons l pre ih =>
    intro fuel ls e h
    have h1 := h l (by simp)
    have hrec := ih fuel ls e (fun x hx => h x (by simp [hx]))
    have hlen : (l :: pre).length + fuel = (pre.length + fuel) + 1 := by
      simp [List.length_cons]; omega
    rw [hlen, List.cons_append]
    simp only [readLoopFuel, h1.1, h1.2, if_false, if_neg, hrec,
      sinkAll_cons, List.append_assoc]

lemma foldl_push_eq (f : String → String) :
    ∀ (ms : List String) (init : List String),
      ms.foldl (fun args m => args ++ [f m]) init = init ++ ms.map f := by
  intro ms
  induction ms with
  | nil => intro init; simp
  | cons m ms ih => intro init; simp [List.foldl_cons, ih]

lemma requestArgs_eq (out lib : String) (ms : List String) :
    requestArgs out lib ms =
      ["--lib", lib, "--out", pathJoin out "ebin"] ++
        ms.map (fun m => pathJoin (pathJoin out artefactDirectoryName) m) := by
  simpa [requestArgs] using
    foldl_push_eq (fun m => pathJoin (pathJoin out artefactDirectoryName) m) ms
      ["--lib", lib, "--out", pathJoin out "ebin"]

lemma splitChar_ne_nil (sep : Char) : ∀ (l : List Char), splitChar sep l ≠ [] := by
  intro l
  induction l with
  | nil => simp [splitChar]
  | cons c rest ih =>
    cases hs : splitChar sep rest with
    | nil => exact absurd hs ih
    | cons h t => simp only [splitChar, hs]; split <;> simp

lemma splitChar_sepFree (sep : Char) :
    ∀ (a : List Char), sep ∉ a → splitChar sep a = [a] := by
  intro a
  induction a with
  | nil => intro _; rfl
  | cons c a ih =>
    intro h
    have hc : ¬ c = sep := fun e => h (by simp [e])
    have ha : sep ∉ a := fun hm => h (by simp [hm])
    simp [splitChar, ih ha, hc]

lemma splitChar_append (sep : Char) :
    ∀ (a rest : List Char), sep ∉ a →
      splitChar sep (a ++ sep :: rest) = a :: splitChar sep rest := by
  intro a
  induction a with
  | nil =>
    intro rest _
    cases hs : splitChar sep rest with
    | nil => exact absurd hs (splitChar_ne_nil sep rest)
    | cons h t => simp [splitChar, hs]
  | cons c a ih =>
    intro rest h
    have hc : ¬ c = sep := fun e => h (by simp [e])
    have ha : sep ∉ a := fun hm => h (by simp [hm])
    simp [splitChar, ih rest ha, hc]

lemma joinSep_cons_cons (a b : String) (rest : List String) :
    (joinSep usepStr (a :: b :: rest)).data
      = a.data ++ usep :: (joinSep usepStr (b :: rest)).data := by
  simp [joinSep, String.data_append, usepStr]

lemma splitSep_joinSep :
    ∀ (args : List String), args ≠ [] → (∀ a ∈ args, usep ∉ a.data) →
      splitSep usep (joinSep usepStr args) = args := by
  intro args
  induction args with
  | nil => intro h _; exact absurd rfl h
  | cons a args ih =>
    intro _ hfree
    cases args with
    | nil =>
      have ha := hfree a (by simp)
      simp [joinSep, splitSep, splitChar_sepFree usep a.data ha]
    | cons b rest =>
      have ha := hfree a (by simp)
      have hrec := ih (by simp)
        (fun x hx => hfree x (by simp at hx; simp [hx]))
      simp only [splitSep, joinSep_cons_cons,
        splitChar_append usep a.data _ ha, List.map_cons]
      refine congrArg₂ List.cons rfl ?_
      exact hrec

lemma ensureLive_ok_shape (st : Option Nat) (env : CompileEnv) (p : Nat)
    (st' : Option Nat) (evs : List Event)
    (h : ensureLive st env = .ok (p, st', evs)) :
    st' = some p ∧
      (evs = [] ∨ evs = [.spawned p] ∨ ∃ q, evs = [.spawned p, .droppedOld q]) := by
  cases st with
  | none =>
    cases hs : spawnBeam env with
    | error e => simp [ensureLive, hs] at h
    | ok q =>
      simp only [ensureLive, hs, Except.ok.injEq, Prod.mk.injEq] at h
      obtain ⟨h1, h2, h3⟩ := h
      subst h1; subst h2; subst h3
      exact ⟨rfl, Or.inr (Or.inl rfl)⟩
  | some p0 =>
    cases hp : env.probe with
    | running =>
      simp only [ensureLive, hp, Except.ok.injEq, Prod.mk.injEq] at h
      obtain ⟨h1, h2, h3⟩ := h
      subst h1; subst h2; subst h3
      exact ⟨rfl, Or.inl rfl⟩
    | exited =>
      cases hs : spawnBeam env with
      | error e => simp [ensureLive, hp, hs] at h
      | ok q =>
        simp only [ensureLive, hp, hs, Except.ok.injEq, Prod.mk.injEq] at h
        obtain ⟨h1, h2, h3⟩ := h
        subst h1; subst h2; subst h3
        exact ⟨rfl, Or.inr (Or.inr ⟨p0, rfl⟩)⟩
    | probeErr =>
      cases hs : spawnBeam env with
      | error e => simp [ensureLive, hp, hs] at h
      | ok q =>
        simp only [ensureLive, hp, hs, Except.ok.injEq, Prod.mk.injEq] at h
        obtain ⟨h1, h2, h3⟩ := h
        subst h1; subst h2; subst h3
        exact ⟨rfl, Or.inr (Or.inr ⟨p0, rfl⟩)⟩

lemma compileBeam_ensure_fail (fuel : Nat) (st : Option Nat) (out lib : String)
    (ms : List String) (stdio : Stdio) (env : CompileEnv) (e : Error)
    (hens : ensureLive st env = .error e) :
    compileBeam fuel st out lib ms stdio env = (some (.error e), st, [], []) := by
  simp [compileBeam, hens]

lemma compileBeam_write_fail (fuel : Nat) (st : Option Nat) (out lib : String)
    (ms : List String) (stdio : Stdio) (env : CompileEnv) (p : Nat)
    (st' : Option Nat) (evs : List Event) (k : OsErrorKind)
    (hens : ensureLive st env = .ok (p, st', evs))
    (hw : env.writeRes = some k) :
    compileBeam fuel st out lib ms stdio env =
      (some (.error (.shellCommand "escript" (some k))), st', evs, []) := by
  simp [compileBeam, hens, hw]

lemma compileBeam_write_ok (fuel : Nat) (st : Option Nat) (out lib : String)
    (ms : List String) (stdio : Stdio) (env : CompileEnv) (p : Nat)
    (st' : Option Nat) (evs : List Event)
    (hens : ensureLive st env = .ok (p, st', evs))
    (hw : env.writeRes = none) :
    compileBeam fuel st out lib ms stdio env =
      ((readLoopFuel stdio fuel env.lines env.ending).1, st',
        evs ++ [.wroteRequest (requestLine out lib ms)],
        (readLoopFuel stdio fuel env.lines env.ending).2) := by
  simp [compileBeam, hens, hw]

lemma spawnBeam_ok (env : CompileEnv) (q : Nat)
    (hfs : env.fsWrite = none) (hs : env.spawnRes = .ok q) :
    spawnBeam env = .ok q := by
  simp [spawnBeam, hfs, hs]

lemma ensureLive_reuse (p : Nat) (env : CompileEnv) (hp : env.probe = .running) :
    ensureLive (some p) env = .ok (p, some p, []) := by
  simp [ensureLive, hp]

lemma ensureLive_spawn_none (env : CompileEnv) (q : Nat)
    (hs : spawnBeam env = .ok q) :
    ensureLive none env = .ok (q, some q, [.spawned q]) := by
  simp [ensureLive, hs]

lemma ensureLive_respawn (p : Nat) (env : CompileEnv) (q : Nat)
    (hp : env.probe ≠ .running) (hs : spawnBeam env = .ok q) :
    ensureLive (some p) env = .ok (q, some q, [.spawned q, .droppedOld p]) := by
  cases hpp : env.probe with
  | running => exact absurd hpp hp
  | exited => simp [ensureLive, hpp, hs]
  | probeErr => simp [ensureLive, hpp, hs]

/-- C1 (code bug): the claim says that when the output pipe closes (end
of stream) before an `"ok"`/`"err"` sentinel, `compile` terminates with
the same failure as an explicit `"err"`. The source's own comment at
line 90 states that intent, but `read_line` reports end of stream as
`Ok(0)`, so the `while let Ok(_)` loop never exits: on the stream
`"still working\n"` followed by pipe closure, `compile` never returns,
for every amount of fuel. Only a `read_line` I/O error reaches the
post-loop failure. -/
theorem c1_eof_hangs_compile :
    ∀ fuel : Nat,
      (compileBeam fuel none "/out" "/lib" [] Stdio.inherit
        ⟨.running, none, .ok 1, none, ["still working\n"], .closed⟩).1
        = none := by
  intro fuel
  rw [compileBeam_write_ok fuel none "/out" "/lib" [] Stdio.inherit
    ⟨.running, none, .ok 1, none, ["still working\n"], .closed⟩
    1 (some 1) [.spawned 1] rfl rfl]
  exact readLoopFuel_closed_none Stdio.inherit fuel ["still working\n"] (by decide)

/-- C1, contrast case: on an actual `read_line` I/O error the loop does
exit and the failure equals the explicit-`err` one, which is what the
spec describes for stream closure. -/
theorem c1_read_error_returns_err_failure :
    (compileBeam 2 none "/out" "/lib" [] Stdio.inherit
      ⟨.running, none, .ok 1, none, ["still working\n"], .ioError⟩).1
      = some (.error errNoDetail) := by
  rfl

/-- C2: in one read loop, a line trimming to `"ok"` ends the loop with
success, a line trimming to `"err"` ends it with the no-detail failure,
and every preceding non-sentinel line is passed verbatim (untrimmed) to
the sink — forwarded when the sink is `Inherit`, discarded when it is
`Null` — while reading continues. -/
theorem c2_read_loop_protocol (stdio : Stdio) (pre : List String) (s : String)
    (rest : List String) (e : StreamEnd)
    (hpre : ∀ l ∈ pre, rustTrim l ≠ "ok" ∧ rustTrim l ≠ "err") :
    (rustTrim s = "ok" →
      readLoopFuel stdio (pre.length + 1) (pre ++ s :: rest) e
        = (some (.ok ()), sinkAll stdio pre)) ∧
    (rustTrim s = "err" →
      readLoopFuel stdio (pre.length + 1) (pre ++ s :: rest) e
        = (some (.error errNoDetail), sinkAll stdio pre)) ∧
    sinkAll Stdio.inherit pre = pre ∧ sinkAll Stdio.null pre = [] := by
  have hmain := readLoopFuel_passthrough stdio pre 1 (s :: rest) e hpre
  refine ⟨?_, ?_, rfl, rfl⟩
  · intro hok
    rw [hmain]
    simp [readLoopFuel, hok]
  · intro herr
    have hok : ¬ rustTrim s = "ok" := by
      intro h; rw [h] at herr; exact absurd herr (by decide)
    rw [hmain]
    simp [readLoopFuel, hok, herr]

/-- Witness for C2 at the spec's own example: the stream
`"compiling foo\nok\n"` with forwarding enabled yields success with the
forwarded text `"compiling foo\n"`. -/
theorem c2_read_loop_protocol_witness :
    (∀ l ∈ ["compiling foo\n"], rustTrim l ≠ "ok" ∧ rustTrim l ≠ "err") ∧
    readLoopFuel Stdio.inherit (["compiling foo\n"].length + 1)
        (["compiling foo\n"] ++ "ok\n" :: []) StreamEnd.closed
      = (some (.ok ()), ["compiling foo\n"]) := by
  constructor
  · decide
  · exact (c2_read_loop_protocol Stdio.inherit ["compiling foo\n"] "ok\n" []
      StreamEnd.closed (by decide)).1 (by decide)

/-- C3: when a process is stored and the liveness probe confirms it is
running, it is reused and nothing is spawned; when no process is stored,
or the probe says exited, or the probe errors, exactly one fresh process
is spawned and replaces the stored one, and the spawn precedes the
writing of the request line (shown by the exact ordered event lists). -/
theorem c3_spawn_policy (fuel : Nat) (st : Option Nat) (out lib : String)
    (ms : List String) (stdio : Stdio) (env : CompileEnv) (q : Nat)
    (hw : env.writeRes = none) :
    (∀ p, st = some p → env.probe = .running →
      (compileBeam fuel st out lib ms stdio env).2.1 = some p ∧
      (compileBeam fuel st out lib ms stdio env).2.2.1
        = [.wroteRequest (requestLine out lib ms)]) ∧
    (st = none → env.fsWrite = none → env.spawnRes = .ok q →
      (compileBeam fuel st out lib ms stdio env).2.1 = some q ∧
      (compileBeam fuel st out lib ms stdio env).2.2.1
        = [.spawned q, .wroteRequest (requestLine out lib ms)]) ∧
    (∀ p, st = some p → env.probe ≠ .running → env.fsWrite = none →
      env.spawnRes = .ok q →
      (compileBeam fuel st out lib ms stdio env).2.1 = some q ∧
      (compileBeam fuel st out lib ms stdio env).2.2.1
        = [.spawned q, .droppedOld p, .wroteRequest (requestLine out lib ms)]) := by
  refine ⟨?_, ?_, ?_⟩
  · intro p hst hp
    subst hst
    rw [compileBeam_write_ok fuel _ out lib ms stdio env p (some p) []
      (ensureLive_reuse p env hp) hw]
    exact ⟨rfl, rfl⟩
  · intro hst hfs hs
    subst hst
    rw [compileBeam_write_ok fuel _ out lib ms stdio env q (some q) [.spawned q]
      (ensureLive_spawn_none env q (spawnBeam_ok env q hfs hs)) hw]
    exact ⟨rfl, rfl⟩
  · intro p hst hp hfs hs
    subst hst
    rw [compileBeam_write_ok fuel _ out lib ms stdio env q (some q)
      [.spawned q, .droppedOld p]
      (ensureLive_respawn p env q hp (spawnBeam_ok env q hfs hs)) hw]
    exact ⟨rfl, rfl⟩

/-- Witness for C3: a stored process `1` whose probe says it has exited
is replaced by exactly one fresh process `2`, spawned before the request
line is written. -/
theorem c3_spawn_policy_witness :
    (compileBeam 1 (some 1) "/out" "/lib" [] Stdio.null
        ⟨.exited, none, .ok 2, none, ["ok\n"], .closed⟩).2.1 = some 2 ∧
    (compileBeam 1 (some 1) "/out" "/lib" [] Stdio.null
        ⟨.exited, none, .ok 2, none, ["ok\n"], .closed⟩).2.2.1
      = [.spawned 2, .droppedOld 1, .wroteRequest (requestLine "/out" "/lib" [])] :=
  (c3_spawn_policy 1 (some 1) "/out" "/lib" [] Stdio.null
      ⟨.exited, none, .ok 2, none, ["ok\n"], .closed⟩ 2 rfl).2.2
    1 rfl (by decide) rfl rfl

/-- C4 counterexample: the module set is a `HashSet` and the request
tokens follow its iteration order, which is not determined by the set's
elements. The lists `["a", "b"]` and `["b", "a"]` are iteration orders
of the same two-element set (they are permutations of one another), yet
with the same output and library directories they produce different
encoded request lines. -/
theorem c4_counterexample :
    (["a", "b"] : List String).Perm ["b", "a"] ∧
    requestLine "/out" "/lib" ["a", "b"] ≠ requestLine "/out" "/lib" ["b", "a"] := by
  constructor
  · exact List.Perm.swap "b" "a" []
  · decide

/-- C4 as amended: the encoded request line is a deterministic function
of the output directory, library directory and the module iteration
sequence; two calls seeing equal sets in possibly different iteration
orders produce argument lists that agree up to permutation of the
per-module tokens (the four-token prefix is fixed). -/
theorem c4_deterministic_up_to_iteration_order (out lib : String)
    (ms1 ms2 : List String) :
    (ms1 = ms2 → requestLine out lib ms1 = requestLine out lib ms2) ∧
    (ms1.Perm ms2 → (requestArgs out lib ms1).Perm (requestArgs out lib ms2)) := by
  constructor
  · intro h; rw [h]
  · intro h
    rw [requestArgs_eq, requestArgs_eq]
    exact List.Perm.append_left _ (h.map _)

/-- Witness for the amended C4 at the counterexample's input. -/
theorem c4_deterministic_witness :
    (requestArgs "/out" "/lib" ["a", "b"]).Perm (requestArgs "/out" "/lib" ["b", "a"]) :=
  (c4_deterministic_up_to_iteration_order "/out" "/lib" ["a", "b"] ["b", "a"]).2
    (List.Perm.swap "b" "a" [])

/-- C5: splitting the joined request payload on the unit separator
recovers the original ordered argument list, provided no argument
contains the separator character — the spec's stated domain assumption
(§4.2: paths "never" contain this control character). -/
theorem c5_roundtrip (out lib : String) (ms : List String)
    (hfree : ∀ a ∈ requestArgs out lib ms, usep ∉ a.data) :
    splitSep usep (requestPayload out lib ms) = requestArgs out lib ms := by
  have hne : requestArgs out lib ms ≠ [] := by
    rw [requestArgs_eq]; simp
  exact splitSep_joinSep _ hne hfree

/-- Witness for C5 at a concrete module set. -/
theorem c5_roundtrip_witness :
    (∀ a ∈ requestArgs "/out" "/lib" ["m1.erl"], usep ∉ a.data) ∧
    splitSep usep (requestPayload "/out" "/lib" ["m1.erl"])
      = requestArgs "/out" "/lib" ["m1.erl"] :=
  ⟨by decide, c5_roundtrip "/out" "/lib" ["m1.erl"] (by decide)⟩

/-- C6: a spawn whose OS error is `NotFound` fails with
`ShellProgramNotFound`; any other spawn failure fails with
`ShellCommand` carrying the OS error kind; and a failure of the request
write fails with `ShellCommand` carrying the write's OS error kind (the
same error kind as non-NotFound spawn failures). -/
theorem c6_error_kinds (env : CompileEnv) (k : OsErrorKind) (fuel : Nat)
    (st : Option Nat) (out lib : String) (ms : List String) (stdio : Stdio) :
    (env.fsWrite = none → env.spawnRes = .fail .notFound →
      spawnBeam env = .error (.shellProgramNotFound "escript")) ∧
    (env.fsWrite = none → env.spawnRes = .fail k → k ≠ .notFound →
      spawnBeam env = .error (.shellCommand "escript" (some k))) ∧
    (∀ p st' evs, ensureLive st env = .ok (p, st', evs) →
      env.writeRes = some k →
      (compileBeam fuel st out lib ms stdio env).1
        = some (.error (.shellCommand "escript" (some k)))) := by
  refine ⟨?_, ?_, ?_⟩
  · intro hfs hs
    simp [spawnBeam, hfs, hs]
  · intro hfs hs hk
    cases k with
    | notFound => exact absurd rfl hk
    | other c => simp [spawnBeam, hfs, hs]
  · intro p st' evs hens hw
    rw [compileBeam_write_fail fuel st out lib ms stdio env p st' evs k hens hw]

/-- Witness for C6: the three error mappings at concrete environments
(spawn failing with `NotFound`, spawn failing with another kind, and a
failing request write). -/
theorem c6_error_kinds_witness :
    spawnBeam ⟨.running, none, .fail .notFound, none, [], .closed⟩
      = .error (.shellProgramNotFound "escript") ∧
    spawnBeam ⟨.running, none, .fail (.other 13), none, [], .closed⟩
      = .error (.shellCommand "escript" (some (.other 13))) ∧
    (compileBeam 1 none "/out" "/lib" [] Stdio.null
        ⟨.running, none, .ok 1, some (.other 32), [], .closed⟩).1
      = some (.error (.shellCommand "escript" (some (.other 32)))) := by
  refine ⟨?_, ?_, ?_⟩
  · exact (c6_error_kinds ⟨.running, none, .fail .notFound, none, [], .closed⟩
      (.other 0) 1 none "/out" "/lib" [] Stdio.null).1 rfl rfl
  · exact (c6_error_kinds ⟨.running, none, .fail (.other 13), none, [], .closed⟩
      (.other 13) 1 none "/out" "/lib" [] Stdio.null).2.1 rfl rfl (by decide)
  · exact (c6_error_kinds ⟨.running, none, .ok 1, some (.other 32), [], .closed⟩
      (.other 32) 1 none "/out" "/lib" [] Stdio.null).2.2 1 (some 1)
      [.spawned 1] rfl rfl

/-- C7: once a live process is ensured and the write succeeds, exactly
one request is written, and it is exactly one line — the spec's token
sequence `--lib`, `<lib>`, `--out`, `<out>/ebin`, then one artifact path
`<out>/<artifact-subdirectory>/<module>` per module, joined by the unit
separator 0x1F and terminated by a newline; the source's `requestLine`
coincides with the spec-modelled `specRequestLine`. -/
theorem c7_request_line (fuel : Nat) (st : Option Nat) (out lib : String)
    (ms : List String) (stdio : Stdio) (env : CompileEnv) (p : Nat)
    (st' : Option Nat) (evs : List Event)
    (hens : ensureLive st env = .ok (p, st', evs)) (hw : env.writeRes = none) :
    (compileBeam fuel st out lib ms stdio env).2.2.1
      = evs ++ [.wroteRequest (specRequestLine out lib ms)] ∧
    requestLine out lib ms = specRequestLine out lib ms ∧
    (∀ ev ∈ evs, ∀ s, ev ≠ .wroteRequest s) := by
  have hreq : requestLine out lib ms = specRequestLine out lib ms := by
    simp [requestLine, requestPayload, specRequestLine, requestArgs_eq]
  refine ⟨?_, hreq, ?_⟩
  · rw [compileBeam_write_ok fuel st out lib ms stdio env p st' evs hens hw]
    show evs ++ [.wroteRequest (requestLine out lib ms)] = _
    rw [hreq]
  · obtain ⟨-, hsh⟩ := ensureLive_ok_shape st env p st' evs hens
    rcases hsh with h | h | ⟨q, h⟩
    · subst h; intro ev hev s; simp at hev
    · subst h; intro ev hev s; simp at hev; simp [hev]
    · subst h; intro ev hev s; simp at hev
      rcases hev with h1 | h1 <;> simp [h1]

/-- Witness for C7 at a concrete call: the single write event carries
the spec-modelled line. -/
theorem c7_request_line_witness :
    (compileBeam 1 none "/out" "/lib" ["m1.erl"] Stdio.null
        ⟨.running, none, .ok 1, none, ["ok\n"], .closed⟩).2.2.1
      = [Event.spawned 1] ++ [.wroteRequest (specRequestLine "/out" "/lib" ["m1.erl"])] :=
  (c7_request_line 1 none "/out" "/lib" ["m1.erl"] Stdio.null
      ⟨.running, none, .ok 1, none, ["ok\n"], .closed⟩ 1 (some 1)
      [.spawned 1] rfl rfl).1

/-- C8 counterexample: when the stored process's liveness probe errors
(`try_wait` returns `Err`), the code respawns and `Option::insert` drops
the old `BeamCompilerInner` — whose `Child` has no `Drop` that kills it.
The old handle (process `1`, not known to have exited) is discarded with
no termination action, contradicting "discarded only after it has been
properly terminated if it had not already exited". -/
theorem c8_counterexample :
    Event.droppedOld 1 ∈
      (compileBeam 1 (some 1) "/out" "/lib" [] Stdio.null
        ⟨.probeErr, none, .ok 2, none, ["ok\n"], .closed⟩).2.2.1 ∧
    Event.killed 1 ∉
      (compileBeam 1 (some 1) "/out" "/lib" [] Stdio.null
        ⟨.probeErr, none, .ok 2, none, ["ok\n"], .closed⟩).2.2.1 := by
  decide

/-- C8 as amended: at most one process is ever stored (the state is an
`Option`, and a successful ensure stores exactly the process used for
the call); `compile` itself never kills or waits on any process; and a
respawn replacing stored process `p` with fresh process `q` simply drops
the old handle, with no termination action — `p` has already been
reaped when the probe said "exited", but on a probe error it may still
be alive. -/
theorem c8_single_ownership_drop_without_kill (fuel : Nat) (st : Option Nat)
    (out lib : String) (ms : List String) (stdio : Stdio) (env : CompileEnv) :
    (∀ p st' evs, ensureLive st env = .ok (p, st', evs) → st' = some p) ∧
    (∀ q, Event.killed q ∉ (compileBeam fuel st out lib ms stdio env).2.2.1 ∧
          Event.waited q ∉ (compileBeam fuel st out lib ms stdio env).2.2.1) ∧
    (∀ p q, st = some p → env.probe ≠ .running → spawnBeam env = .ok q →
      ensureLive st env = .ok (q, some q, [.spawned q, .droppedOld p])) := by
  refine ⟨fun p st' evs h => (ensureLive_ok_shape st env p st' evs h).1, ?_, ?_⟩
  · intro q
    cases hens : ensureLive st env with
    | error e =>
      rw [compileBeam_ensure_fail fuel st out lib ms stdio env e hens]
      simp
    | ok tr =>
      obtain ⟨p, st', evs⟩ := tr
      obtain ⟨-, hsh⟩ := ensureLive_ok_shape st env p st' evs hens
      cases hw : env.writeRes with
      | some k =>
        rw [compileBeam_write_fail fuel st out lib ms stdio env p st' evs k hens hw]
        rcases hsh with h | h | ⟨r, h⟩ <;> subst h <;> simp
      | none =>
        rw [compileBeam_write_ok fuel st out lib ms stdio env p st' evs hens hw]
        rcases hsh with h | h | ⟨r, h⟩ <;> subst h <;> simp
  · intro p q hst hp hs
    subst hst
    exact ensureLive_respawn p env q hp hs

/-- Witness for the amended C8: a probe error on stored process `1`
makes the ensure step store the fresh process `2` and drop process `1`
with no kill event. -/
theorem c8_single_ownership_witness :
    ensureLive (some 1) ⟨.probeErr, none, .ok 2, none, ["ok\n"], .closed⟩
      = .ok (2, some 2, [.spawned 2, .droppedOld 1]) :=
  (c8_single_ownership_drop_without_kill 1 (some 1) "/out" "/lib" [] Stdio.null
      ⟨.probeErr, none, .ok 2, none, ["ok\n"], .closed⟩).2.2
    1 2 rfl (by decide) rfl

/-- C9: on teardown, whenever a process is stored — in particular the
process left stored by any `compile` call, failed or not — it is first
killed and then waited for, and the emitted actions are the same
whether or not the kill or the wait fails (their `Result`s are
discarded); with no stored process teardown does nothing. -/
theorem c9_teardown_kills_and_reaps (fuel : Nat) (st : Option Nat)
    (out lib : String) (ms : List String) (stdio : Stdio) (env : CompileEnv)
    (p : Nat) (killFails waitFails : Bool)
    (h : (compileBeam fuel st out lib ms stdio env).2.1 = some p) :
    dropBeam (compileBeam fuel st out lib ms stdio env).2.1 killFails waitFails
      = [.killed p, .waited p] ∧
    dropBeam none killFails waitFails = [] := by
  constructor
  · rw [h]; cases killFails <;> cases waitFails <;> rfl
  · cases killFails <;> cases waitFails <;> rfl

/-- Witness for C9: after a `compile` call that failed with the `"err"`
sentinel, the stored process `1` is still killed and reaped on teardown
even though the kill reports a failure. -/
theorem c9_teardown_witness :
    dropBeam (compileBeam 1 (some 1) "/out" "/lib" [] Stdio.null
        ⟨.running, none, .ok 99, none, ["err\n"], .closed⟩).2.1 true false
      = [.killed 1, .waited 1] :=
  (c9_teardown_kills_and_reaps 1 (some 1) "/out" "/lib" [] Stdio.null
      ⟨.running, none, .ok 99, none, ["err\n"], .closed⟩ 1 true false rfl).1

/-- C10: once a live process has been ensured, a failing `compile`
(write failure, `"err"` sentinel, or read failure) leaves the stored
handle exactly the ensured process, performs no kill, and adds no event
beyond the optional single request write — so any respawn can only
happen at the start of a later call. -/
theorem c10_failure_preserves_process (fuel : Nat) (st : Option Nat)
    (out lib : String) (ms : List String) (stdio : Stdio) (env : CompileEnv)
    (p : Nat) (st' : Option Nat) (evs : List Event) (e : Error)
    (hens : ensureLive st env = .ok (p, st', evs))
    (hfail : (compileBeam fuel st out lib ms stdio env).1 = some (.error e)) :
    (compileBeam fuel st out lib ms stdio env).2.1 = some p ∧
    (∀ q, Event.killed q ∉ (compileBeam fuel st out lib ms stdio env).2.2.1) ∧
    ((compileBeam fuel st out lib ms stdio env).2.2.1 = evs ∨
     (compileBeam fuel st out lib ms stdio env).2.2.1
        = evs ++ [.wroteRequest (requestLine out lib ms)]) := by
  obtain ⟨hst', hsh⟩ := ensureLive_ok_shape st env p st' evs hens
  cases hw : env.writeRes with
  | some k =>
    rw [compileBeam_write_fail fuel st out lib ms stdio env p st' evs k hens hw]
    refine ⟨hst', ?_, Or.inl rfl⟩
    intro q
    rcases hsh with h | h | ⟨r, h⟩ <;> subst h <;> simp
  | none =>
    rw [compileBeam_write_ok fuel st out lib ms stdio env p st' evs hens hw]
    refine ⟨hst', ?_, Or.inr rfl⟩
    intro q
    rcases hsh with h | h | ⟨r, h⟩ <;> subst h <;> simp

/-- Witness for C10: a call on stored process `7` that fails with the
`"err"` sentinel leaves process `7` stored. -/
theorem c10_failure_preserves_witness :
    (compileBeam 1 (some 7) "/out" "/lib" [] Stdio.null
        ⟨.running, none, .ok 99, none, ["err\n"], .closed⟩).2.1 = some 7 :=
  (c10_failure_preserves_process 1 (some 7) "/out" "/lib" [] Stdio.null
      ⟨.running, none, .ok 99, none, ["err\n"], .closed⟩ 7 (some 7) []
      errNoDetail rfl rfl).1
